import Mathlib

/-!
Verification of the COLMAP exporter plugin (blender-exporter-colmap).

The development shallowly embeds the host-independent parts of the
exporter: the pose converter (operators/colmap_exporter.py,
get_camera_pose), the intrinsics extraction (get_camera_parameters),
the point sampling helper (ext/create_point3d.py), the save/restore
of modifier visibility around an export run, the render scope guard
(render_camera_at_frame) and the directory/file layout produced by
export_dataset.  Machine floats are modelled by exact rationals.
-/

/-- Quaternion with rational components in scalar-first order
(w, x, y, z), as mathutils.Quaternion stores them. -/
structure Quat where
  w : ℚ
  x : ℚ
  y : ℚ
  z : ℚ
deriving DecidableEq, Repr

/-- 3-vector with rational components, as mathutils.Vector. -/
structure Vec3 where
  x : ℚ
  y : ℚ
  z : ℚ
deriving DecidableEq, Repr

/-- Zero vector. -/
def Vec3.zero : Vec3 := ⟨0, 0, 0⟩

/-- Componentwise negation, the unary minus of mathutils.Vector. -/
def Vec3.neg (v : Vec3) : Vec3 := ⟨-v.x, -v.y, -v.z⟩

/-- Componentwise addition of vectors. -/
def Vec3.add (u v : Vec3) : Vec3 := ⟨u.x + v.x, u.y + v.y, u.z + v.z⟩

/-- Row-major 3 by 3 matrix of rationals. -/
structure Mat3 where
  m00 : ℚ
  m01 : ℚ
  m02 : ℚ
  m10 : ℚ
  m11 : ℚ
  m12 : ℚ
  m20 : ℚ
  m21 : ℚ
  m22 : ℚ
deriving DecidableEq, Repr

/-- Matrix-vector product of a mathutils Matrix with a Vector. -/
def matVec (m : Mat3) (v : Vec3) : Vec3 :=
  ⟨m.m00 * v.x + m.m01 * v.y + m.m02 * v.z,
   m.m10 * v.x + m.m11 * v.y + m.m12 * v.z,
   m.m20 * v.x + m.m21 * v.y + m.m22 * v.z⟩

/-- Matrix transpose. -/
def Mat3.transpose (m : Mat3) : Mat3 :=
  ⟨m.m00, m.m10, m.m20, m.m01, m.m11, m.m21, m.m02, m.m12, m.m22⟩

/-- Quaternion to rotation matrix, the formula of Blender
quat_to_mat3 (and hence of mathutils Quaternion.to_matrix), written
row-major for right multiplication by a column vector. -/
def quatToMat3 (q : Quat) : Mat3 :=
  ⟨1 - 2 * q.y ^ 2 - 2 * q.z ^ 2,
   2 * q.x * q.y - 2 * q.w * q.z,
   2 * q.x * q.z + 2 * q.w * q.y,
   2 * q.x * q.y + 2 * q.w * q.z,
   1 - 2 * q.x ^ 2 - 2 * q.z ^ 2,
   2 * q.y * q.z - 2 * q.w * q.x,
   2 * q.x * q.z - 2 * q.w * q.y,
   2 * q.y * q.z + 2 * q.w * q.x,
   1 - 2 * q.x ^ 2 - 2 * q.y ^ 2⟩

/-- Hamilton product of quaternions. -/
def Quat.mul (a b : Quat) : Quat :=
  ⟨a.w * b.w - a.x * b.x - a.y * b.y - a.z * b.z,
   a.w * b.x + a.x * b.w + a.y * b.z - a.z * b.y,
   a.w * b.y - a.x * b.z + a.y * b.w + a.z * b.x,
   a.w * b.z + a.x * b.y - a.y * b.x + a.z * b.w⟩

/-- Quaternion conjugate. -/
def Quat.conj (q : Quat) : Quat := ⟨q.w, -q.x, -q.y, -q.z⟩

/-- Identity rotation: host components (x, y, z, w) = (0, 0, 0, 1). -/
def quatIdentity : Quat := ⟨1, 0, 0, 0⟩

/-- Axis-convention correction quaternion, a half turn about the X
axis; the remap below equals composition with it after inversion. -/
def axisCorrectionQuat : Quat := ⟨0, 1, 0, 0⟩

/-- Component remap of get_camera_pose, lines 176-181: the mathutils
constructor receives (orig.x, orig.w, orig.z, -orig.y) and reads the
arguments scalar-first. -/
def convertQuat (q : Quat) : Quat := ⟨q.x, q.w, q.z, -q.y⟩

/-- Output of get_camera_pose: qvec is the numpy array
[cam_rot.w, cam_rot.x, cam_rot.y, cam_rot.z] kept here as a
scalar-first quaternion, tvec the translation vector. -/
structure CameraPose where
  qvec : Quat
  tvec : Vec3
deriving DecidableEq, Repr

/-- get_camera_pose (operators/colmap_exporter.py, lines 169-193):
remap the rotation quaternion, then translation = -(cam_rot.to_matrix()
applied to location). -/
def get_camera_pose (rotation_quat : Quat) (location : Vec3) : CameraPose :=
  let cam_rot := convertQuat rotation_quat
  { qvec := cam_rot
    tvec := Vec3.neg (matVec (quatToMat3 cam_rot) location) }

/-- Literal reading of the specification sentence for the remap: an
intermediate quaternion whose components labelled (x, y, z, w) are
(orig.x, orig.w, orig.z, -orig.y), then emitted scalar-first.  This
definition follows the words of the spec, for comparison with
convertQuat, which follows the source. -/
def qvecSpecLiteral (q : Quat) : Quat := ⟨-q.y, q.x, q.w, q.z⟩

/-- Python int() applied to a float: truncation toward zero. -/
def pyInt (q : ℚ) : ℤ := if 0 ≤ q then ⌊q⌋ else ⌈q⌉

/-- RGBA colour sample, the FLOAT_COLOR attribute entry of a point. -/
structure ColourRGBA where
  r : ℚ
  g : ℚ
  b : ℚ
  a : ℚ
deriving DecidableEq, Repr

/-- Quantization of one colour channel, int(channel * 255) in
ext/create_point3d.py line 38. -/
def quantizeChannel (v : ℚ) : ℤ := pyInt (v * 255)

/-- Affine world transform: the object matrix_world, which mathutils
applies to a 3-vector as linear part plus translation. -/
structure AffineTransform where
  linear : Mat3
  translation : Vec3
deriving DecidableEq, Repr

/-- Application of matrix_world to a local position. -/
def applyAffine (t : AffineTransform) (v : Vec3) : Vec3 :=
  Vec3.add (matVec t.linear v) t.translation

/-- Point3D record of the model codec, as constructed by
create_point3d_from_mesh (numpy arrays kept as lists and triples). -/
structure Point3D where
  id : ℕ
  xyz : Vec3
  rgb : ℤ × ℤ × ℤ
  error : ℚ
  image_ids : List ℤ
  point2D_idxs : List ℤ
deriving DecidableEq, Repr

/-- One Point3D record, ext/create_point3d.py lines 31-49: world
position through matrix_world, colour from the FLOAT_COLOR attribute at
index i-1 when that attribute is truthy and long enough, otherwise the
default (128, 128, 128); id i, error 0, empty tracks. -/
def mkPoint3d (mw : AffineTransform) (colour : Option (List ColourRGBA))
    (i : ℕ) (pos : Vec3) : Point3D :=
  let world := applyAffine mw pos
  let rgb : ℤ × ℤ × ℤ :=
    match colour with
    | some cs =>
        if i - 1 < cs.length then
          let c := cs.getD (i - 1) ⟨0, 0, 0, 0⟩
          (quantizeChannel c.r, quantizeChannel c.g, quantizeChannel c.b)
        else (128, 128, 128)
    | none => (128, 128, 128)
  { id := i
    xyz := world
    rgb := rgb
    error := 0
    image_ids := []
    point2D_idxs := [] }

/-- Enumeration loop of create_point3d_from_mesh: enumerate from i. -/
def createPoint3dGo (mw : AffineTransform) (colour : Option (List ColourRGBA)) :
    ℕ → List Vec3 → List Point3D
  | _, [] => []
  | i, p :: rest => mkPoint3d mw colour i p :: createPoint3dGo mw colour (i + 1) rest

/-- create_point3d_from_mesh (ext/create_point3d.py): when the mesh has
no position attribute the function prints a warning and returns the
empty list; otherwise it enumerates position samples from 1. -/
def create_point3d_from_mesh (mw : AffineTransform)
    (position_attr : Option (List Vec3))
    (colour_attr : Option (List ColourRGBA)) : List Point3D :=
  match position_attr with
  | none => []
  | some ps => createPoint3dGo mw colour_attr 1 ps

/-- Live state of the PointCloudGeneration modifier on a mesh object:
its two visibility flags and the Preview group input. -/
structure ModifierState where
  show_viewport : Bool
  show_render : Bool
  preview : Bool
deriving DecidableEq, Repr

/-- Entry stored in the modifier_states dictionary for one object
(colmap_exporter.py lines 93-108). -/
structure SavedModifierEntry where
  show_viewport : Bool
  show_render : Bool
  preview_state : Option Bool
deriving DecidableEq, Repr

/-- setup_point_cloud_modifiers (lines 83-127) for one mesh object
carrying the PointCloudGeneration modifier with a Preview input: saves
the two visibility flags and the Preview value, turns Preview off,
samples the point cloud, and leaves both visibility flags False.
Returns the saved dictionary entry and the mutated modifier state. -/
def setup_point_cloud_modifiers (m : ModifierState) :
    SavedModifierEntry × ModifierState :=
  (⟨m.show_viewport, m.show_render, some m.preview⟩, ⟨false, false, false⟩)

/-- restore_modifier_states (lines 129-143) for one object: when the
dictionary has no entry for the object nothing changes; otherwise both
visibility flags are written back and Preview is written back when a
value was saved. -/
def restore_modifier_states (saved : Option SavedModifierEntry)
    (m : ModifierState) : ModifierState :=
  match saved with
  | none => m
  | some st =>
      { show_viewport := st.show_viewport
        show_render := st.show_render
        preview := match st.preview_state with
          | some b => b
          | none => m.preview }

/-- Modifier-state flow of export_dataset (lines 223-288), one object:
line 223 saves the states through setup_point_cloud_modifiers, line 230
rebinds modifier_states to the empty dictionary inside the try block,
and the finally block calls restore_modifier_states on that empty
dictionary, whether the body completed or raised. -/
def exportModifierFlow (m : ModifierState) : ModifierState :=
  match setup_point_cloud_modifiers m with
  | (_saved, m1) =>
      let modifier_states : Option SavedModifierEntry := none
      restore_modifier_states modifier_states m1

/-- Camera model tag of the exporter, the camera_model EnumProperty. -/
inductive CameraModel where
  | PINHOLE
  | OPENCV
deriving DecidableEq, Repr

/-- Render settings of the scene used by get_camera_parameters. -/
structure SceneSettings where
  resolution_x : ℚ
  resolution_y : ℚ
  resolution_percentage : ℚ
deriving DecidableEq, Repr

/-- Intrinsic data of one camera object. -/
structure CamIntrinsics where
  lens : ℚ
  sensor_width : ℚ
  sensor_height : ℚ
deriving DecidableEq, Repr

/-- Pixel width, int(resolution_x * resolution_percentage / 100.0). -/
def imageWidth (scene : SceneSettings) : ℤ :=
  pyInt (scene.resolution_x * scene.resolution_percentage / 100)

/-- Pixel height, int(resolution_y * resolution_percentage / 100.0). -/
def imageHeight (scene : SceneSettings) : ℤ :=
  pyInt (scene.resolution_y * scene.resolution_percentage / 100)

/-- get_camera_parameters (colmap_exporter.py lines 145-167): focal
lengths in pixels, centred principal point, and for OPENCV four zero
distortion coefficients k1 = k2 = p1 = p2 = 0. -/
def get_camera_parameters (model : CameraModel) (cam : CamIntrinsics)
    (scene : SceneSettings) : List ℚ :=
  let width : ℚ := (imageWidth scene : ℚ)
  let height : ℚ := (imageHeight scene : ℚ)
  let fx := cam.lens * width / cam.sensor_width
  let fy := cam.lens * height / cam.sensor_height
  let cx := width / 2
  let cy := height / 2
  match model with
  | CameraModel.PINHOLE => [fx, fy, cx, cy]
  | CameraModel.OPENCV => [fx, fy, cx, cy, 0, 0, 0, 0]

/-- Camera record of the model codec, as filled by export_dataset. -/
structure CameraRecord where
  id : ℕ
  model : CameraModel
  width : ℤ
  height : ℤ
  params : List ℚ
deriving DecidableEq, Repr

/-- PosedImage record of the model codec, as filled by export_dataset
(xys and point3D_ids are always empty there). -/
structure PosedImage where
  id : ℕ
  qvec : Quat
  tvec : Vec3
  camera_id : ℕ
  name : String
  xys : List (ℚ × ℚ)
  point3D_ids : List ℤ
deriving DecidableEq, Repr

/-- Pose of one camera at one selected frame, as the scene evaluates
it after frame_set. -/
structure FrameData where
  frame : ℤ
  rotation : Quat
  location : Vec3
deriving DecidableEq, Repr

/-- One scene camera as the export loop consumes it: its full name,
its intrinsics, and the selected frames with the pose at each. -/
structure CamInput where
  name_full : String
  intrinsics : CamIntrinsics
  frames : List FrameData
deriving DecidableEq, Repr

/-- Image file name, lines 260-264: camera name plus frame tag when a
camera renders more than one frame (the 04d zero padding of the frame
number and the render file extension are elided). -/
def imageFileName (c : CamInput) (f : FrameData) : String :=
  if 1 < c.frames.length then
    c.name_full ++ "_frame_" ++ toString f.frame
  else
    c.name_full

/-- PosedImage built at lines 265-273: current image_id, the converted
pose, the camera_id of the enclosing camera, empty xys and
point3D_ids. -/
def mkPosedImage (image_id camera_id : ℕ) (c : CamInput) (f : FrameData) :
    PosedImage :=
  { id := image_id
    qvec := (get_camera_pose f.rotation f.location).qvec
    tvec := (get_camera_pose f.rotation f.location).tvec
    camera_id := camera_id
    name := imageFileName c f
    xys := []
    point3D_ids := [] }

/-- Inner frame loop of export_dataset (lines 254-282): one image per
selected frame, image ids counting up. -/
def imagesForCamera (camera_id : ℕ) (c : CamInput) :
    ℕ → List FrameData → List (ℕ × PosedImage)
  | _, [] => []
  | image_id, f :: rest =>
      (image_id, mkPosedImage image_id camera_id c f) ::
        imagesForCamera camera_id c (image_id + 1) rest

/-- CameraRecord built at lines 241-248. -/
def mkCameraRecord (camera_id : ℕ) (model : CameraModel) (c : CamInput)
    (scene : SceneSettings) : CameraRecord :=
  { id := camera_id
    model := model
    width := imageWidth scene
    height := imageHeight scene
    params := get_camera_parameters model c.intrinsics scene }

/-- Outer camera loop of export_dataset (lines 238-284): camera ids and
image ids both start at 1 and count up; each camera record is inserted
into the cameras dictionary before the images that reference it. -/
def exportBuildGo (model : CameraModel) (scene : SceneSettings) :
    ℕ → ℕ → List CamInput → List (ℕ × CameraRecord) × List (ℕ × PosedImage)
  | _, _, [] => ([], [])
  | camera_id, image_id, c :: rest =>
      let imgs := imagesForCamera camera_id c image_id c.frames
      let next := exportBuildGo model scene (camera_id + 1)
        (image_id + c.frames.length) rest
      ((camera_id, mkCameraRecord camera_id model c scene) :: next.1,
       imgs ++ next.2)

/-- The cameras and images dictionaries passed to write_model at
line 286, built from the sorted scene cameras. -/
def exportBuildModel (model : CameraModel) (scene : SceneSettings)
    (cams : List CamInput) : List (ℕ × CameraRecord) × List (ℕ × PosedImage) :=
  exportBuildGo model scene 1 1 cams

/-- Output encoding selected by the output_format EnumProperty. -/
inductive OutputFormat where
  | txt
  | bin
deriving DecidableEq, Repr

/-- File extension of an encoding. -/
def formatExt : OutputFormat → String
  | OutputFormat.txt => "txt"
  | OutputFormat.bin => "bin"

/-- File-system effect of the exporter, paths as segment lists rooted
at the export directory choice. -/
inductive ExportEvent where
  | mkdirAll (path : List String)
  | writeImageFile (path : List String)
  | writeModelCall (dir : List String) (format : OutputFormat)
  | writeFile (path : List String)
deriving DecidableEq, Repr

/-- Modelled from the spec: write_model of utils/read_write_model.py is
imported by the exporter but the module is not in the repository
snapshot.  Per the spec it creates exactly three files named
cameras, images and points3D with the extension of the chosen encoding,
inside the directory it is given. -/
def writeModelEvents (dir : List String) (fmt : OutputFormat) : List ExportEvent :=
  [ExportEvent.writeFile (dir ++ ["cameras." ++ formatExt fmt]),
   ExportEvent.writeFile (dir ++ ["images." ++ formatExt fmt]),
   ExportEvent.writeFile (dir ++ ["points3D." ++ formatExt fmt])]

/-- Rendered image files written by the per-frame loop, one per posed
image, inside the images directory. -/
def renderEvents (imagesDir : List String)
    (imgs : List (ℕ × PosedImage)) : List ExportEvent :=
  imgs.map (fun pr => ExportEvent.writeImageFile (imagesDir ++ [pr.2.name]))

/-- File-system trace of export_dataset (lines 210-290): both output
directories are created up front with parents (lines 215-216); with no
scene camera the run is cancelled before any further effect
(lines 218-221); otherwise the frames are rendered into the images
directory and write_model is invoked on dirpath/sparse/0 with the
selected encoding (line 286). -/
def exportDatasetEvents (dirpath : List String) (fmt : OutputFormat)
    (model : CameraModel) (scene : SceneSettings)
    (cams : List CamInput) : List ExportEvent :=
  let output_dir := dirpath ++ ["sparse", "0"]
  let images_dir := dirpath ++ ["images"]
  [ExportEvent.mkdirAll output_dir, ExportEvent.mkdirAll images_dir] ++
    (if cams.isEmpty then []
     else
       renderEvents images_dir (exportBuildModel model scene cams).2 ++
         ExportEvent.writeModelCall output_dir fmt ::
           writeModelEvents output_dir fmt)

/-- Scene state touched by render_camera_at_frame: the current frame
and the active camera object (None possible). -/
structure SceneState where
  frame_current : ℤ
  camera : Option ℕ
deriving DecidableEq, Repr

/-- A try/finally around a state-passing body: the finalizer runs on
the state left by the body whether the body returned or raised. -/
def tryFinallyS {α : Type} (body : SceneState → Except Unit α × SceneState)
    (fin : SceneState → SceneState) (s : SceneState) :
    Except Unit α × SceneState :=
  match body s with
  | (r, s1) => (r, fin s1)

/-- Try block of render_camera_at_frame (lines 200-204): set the frame,
set the active camera, render, save; rendering or saving may raise, and
the raise point leaves the mutated scene state behind. -/
def renderBody (cam : ℕ) (frame : ℤ) (render_raises save_raises : Bool)
    (s : SceneState) : Except Unit Unit × SceneState :=
  let s1 : SceneState := { s with frame_current := frame }
  let s2 : SceneState := { s1 with camera := some cam }
  if render_raises then (Except.error (), s2)
  else if save_raises then (Except.error (), s2)
  else (Except.ok (), s2)

/-- Finally block of render_camera_at_frame (lines 206-208): write the
original frame and the original camera back. -/
def renderFinally (original_frame : ℤ) (original_camera : Option ℕ)
    (s : SceneState) : SceneState :=
  { s with frame_current := original_frame, camera := original_camera }

/-- render_camera_at_frame (lines 195-208): record the original frame
and camera, run the try block, restore both in the finally block. -/
def render_camera_at_frame (cam : ℕ) (frame : ℤ)
    (render_raises save_raises : Bool) (s : SceneState) :
    Except Unit Unit × SceneState :=
  let original_frame := s.frame_current
  let original_camera := s.camera
  tryFinallyS (renderBody cam frame render_raises save_raises)
    (renderFinally original_frame original_camera) s

/-- Claim C1, counterexample: reading the claimed formula literally,
with (x, y, z, w) labels on the left of the component equation, the
output qvec at the identity host rotation would be (0, 0, 1, 0); the
code produces (0, 1, 0, 0). -/
theorem qvec_spec_literal_reading_refuted :
    (get_camera_pose quatIdentity Vec3.zero).qvec ≠ qvecSpecLiteral quatIdentity := by
  decide

/-- Claim C1 (amended): for every host pose, the output qvec read
scalar-first satisfies (w, x, y, z) = (x, w, z, -y) of the host
quaternion; equivalently it is the axis-correction quaternion composed
with the conjugated host quaternion, and at the identity rotation it is
exactly the fixed axis-correction quaternion (0, 1, 0, 0). -/
theorem qvec_remap_scalar_first :
    (∀ (q : Quat) (p : Vec3),
        (get_camera_pose q p).qvec = Quat.mk q.x q.w q.z (-q.y) ∧
        (get_camera_pose q p).qvec = Quat.mul axisCorrectionQuat (Quat.conj q)) ∧
    (get_camera_pose quatIdentity Vec3.zero).qvec = axisCorrectionQuat := by
  refine ⟨fun q p => ⟨rfl, ?_⟩, by decide⟩
  simp only [get_camera_pose, convertQuat, Quat.mul, Quat.conj, axisCorrectionQuat,
    Quat.mk.injEq]
  refine ⟨?_, ?_, ?_, ?_⟩ <;> ring

/-- Claim C2: the output translation is the negated product of the
rotation matrix of the converted quaternion with the world position,
and a zero position yields the zero translation. -/
theorem tvec_is_neg_rotated_position :
    (∀ (q : Quat) (p : Vec3),
        (get_camera_pose q p).tvec =
          Vec3.neg (matVec (quatToMat3 (convertQuat q)) p)) ∧
    (∀ q : Quat, (get_camera_pose q Vec3.zero).tvec = Vec3.zero) := by
  refine ⟨fun q p => rfl, fun q => ?_⟩
  simp only [get_camera_pose, convertQuat, quatToMat3, matVec, Vec3.neg, Vec3.zero,
    Vec3.mk.injEq]
  refine ⟨?_, ?_, ?_⟩ <;> ring

/-- Claim C3: for a unit host rotation quaternion and any world
position p, the produced (qvec, tvec) pair satisfies the world-to-camera
contract: -R(qvec)^T tvec recovers p, and the camera centre p maps to
the coordinate origin under x_cam = R(qvec) x_world + tvec. -/
theorem pose_world_to_camera_consistent (q : Quat) (p : Vec3)
    (h : q.w * q.w + q.x * q.x + q.y * q.y + q.z * q.z = 1) :
    Vec3.neg (matVec (Mat3.transpose (quatToMat3 (get_camera_pose q p).qvec))
        (get_camera_pose q p).tvec) = p ∧
    Vec3.add (matVec (quatToMat3 (get_camera_pose q p).qvec) p)
        (get_camera_pose q p).tvec = Vec3.zero := by
  obtain ⟨px, py, pz⟩ := p
  constructor
  · simp only [get_camera_pose, convertQuat, quatToMat3, Mat3.transpose,
      matVec, Vec3.neg, Vec3.mk.injEq]
    refine ⟨?_, ?_, ?_⟩
    · linear_combination ((4 * q.z ^ 2 + 4 * q.y ^ 2) * px
        - 4 * q.w * q.z * py + 4 * q.w * q.y * pz) * h
    · linear_combination (-4 * q.w * q.z * px
        + (4 * q.w ^ 2 + 4 * q.y ^ 2) * py + 4 * q.z * q.y * pz) * h
    · linear_combination (4 * q.w * q.y * px + 4 * q.z * q.y * py
        + (4 * q.w ^ 2 + 4 * q.z ^ 2) * pz) * h
  · simp only [get_camera_pose, convertQuat, quatToMat3, matVec,
      Vec3.neg, Vec3.add, Vec3.zero, Vec3.mk.injEq]
    refine ⟨?_, ?_, ?_⟩ <;> ring

/-- Claim C3 witness at the unit quaternion (3/5, 4/5, 0, 0) and the
position (1, 2, 3). -/
theorem pose_world_to_camera_consistent_witness :
    ((3 / 5 : ℚ) * (3 / 5) + (4 / 5 : ℚ) * (4 / 5) + (0 : ℚ) * 0 + (0 : ℚ) * 0 = 1) ∧
    (Vec3.neg (matVec (Mat3.transpose (quatToMat3
          (get_camera_pose ⟨3 / 5, 4 / 5, 0, 0⟩ ⟨1, 2, 3⟩).qvec))
        (get_camera_pose ⟨3 / 5, 4 / 5, 0, 0⟩ ⟨1, 2, 3⟩).tvec) = ⟨1, 2, 3⟩ ∧
      Vec3.add (matVec (quatToMat3
          (get_camera_pose ⟨3 / 5, 4 / 5, 0, 0⟩ ⟨1, 2, 3⟩).qvec) ⟨1, 2, 3⟩)
        (get_camera_pose ⟨3 / 5, 4 / 5, 0, 0⟩ ⟨1, 2, 3⟩).tvec = Vec3.zero) :=
  ⟨by norm_num,
   pose_world_to_camera_consistent ⟨3 / 5, 4 / 5, 0, 0⟩ ⟨1, 2, 3⟩ (by norm_num)⟩

/-- Claim C4, evaluation at the failing input: a modifier that starts
with show_viewport, show_render and Preview all enabled ends the export
with all three disabled, because line 230 rebinds modifier_states to
the empty dictionary before the finally block restores from it; the
pre-export state is not recovered. -/
theorem export_modifier_states_not_restored :
    exportModifierFlow ⟨true, true, true⟩ = ⟨false, false, false⟩ ∧
    exportModifierFlow ⟨true, true, true⟩ ≠ ⟨true, true, true⟩ := by
  decide

/-- Length of the enumeration loop of create_point3d_from_mesh. -/
theorem createPoint3dGo_length (mw : AffineTransform)
    (colour : Option (List ColourRGBA)) :
    ∀ (ps : List Vec3) (n : ℕ), (createPoint3dGo mw colour n ps).length = ps.length
  | [], _ => rfl
  | _ :: rest, n => by
      simp [createPoint3dGo, createPoint3dGo_length mw colour rest (n + 1)]

/-- Element at index i of the enumeration loop: the i-th position,
numbered n + i. -/
theorem createPoint3dGo_get (mw : AffineTransform)
    (colour : Option (List ColourRGBA)) :
    ∀ (ps : List Vec3) (n i : ℕ),
      (createPoint3dGo mw colour n ps)[i]? =
        (ps[i]?).map (fun p => mkPoint3d mw colour (n + i) p)
  | [], _, _ => by simp [createPoint3dGo]
  | p :: rest, n, 0 => by simp [createPoint3dGo]
  | p :: rest, n, i + 1 => by
      have h := createPoint3dGo_get mw colour rest (n + 1) i
      have hn : n + 1 + i = n + (i + 1) := by omega
      simp only [createPoint3dGo, List.getElem?_cons_succ, h, hn]

/-- Claim C5: point sampling is an order-preserving map of the position
stream with no deduplication: the output has one record per sample, the
record at zero-based index i is built from the i-th sample with
sequential one-based id 1 + i, and every record carries error 0, empty
image_ids and empty point2D_idxs, with xyz the world position of its
sample. -/
theorem point_sampling_order_preserving (mw : AffineTransform)
    (colour : Option (List ColourRGBA)) (ps : List Vec3) :
    (create_point3d_from_mesh mw (some ps) colour).length = ps.length ∧
    (∀ i : ℕ,
      (create_point3d_from_mesh mw (some ps) colour)[i]? =
        (ps[i]?).map (fun p => mkPoint3d mw colour (1 + i) p)) ∧
    (∀ (i : ℕ) (p : Vec3),
      (mkPoint3d mw colour i p).id = i ∧
      (mkPoint3d mw colour i p).error = 0 ∧
      (mkPoint3d mw colour i p).image_ids = [] ∧
      (mkPoint3d mw colour i p).point2D_idxs = [] ∧
      (mkPoint3d mw colour i p).xyz = applyAffine mw p) :=
  ⟨createPoint3dGo_length mw colour ps 1,
   fun i => createPoint3dGo_get mw colour ps 1 i,
   fun _ _ => ⟨rfl, rfl, rfl, rfl, rfl⟩⟩

/-- Claim C6: a sample without colour attribute gets the default grey
(128, 128, 128); on a normalized channel value in [0, 1] the quantizer
int(value * 255) equals floor(value * 255) clamped to [0, 255]; and the
colour (1, 0, 0, 1) yields rgb = (255, 0, 0). -/
theorem point_colour_quantization :
    (∀ (mw : AffineTransform) (i : ℕ) (p : Vec3),
      (mkPoint3d mw none i p).rgb = (128, 128, 128)) ∧
    (∀ v : ℚ, 0 ≤ v → v ≤ 1 →
      quantizeChannel v = max 0 (min 255 ⌊v * 255⌋)) ∧
    (∀ (mw : AffineTransform) (p : Vec3),
      (create_point3d_from_mesh mw (some [p]) (some [⟨1, 0, 0, 1⟩])).map
          (fun x => x.rgb) = [(255, 0, 0)]) := by
  refine ⟨fun _ _ _ => rfl, fun v h0 h1 => ?_, fun mw p => ?_⟩
  · have hv : 0 ≤ v * 255 := by positivity
    have hf0 : 0 ≤ ⌊v * 255⌋ := Int.floor_nonneg.mpr hv
    have hle : v * 255 ≤ 255 := by nlinarith
    have hf255 : ⌊v * 255⌋ ≤ 255 := by
      have h2 := Int.floor_le_floor hle
      have h3 : ⌊(255 : ℚ)⌋ = 255 := by norm_num
      omega
    rw [quantizeChannel, pyInt, if_pos hv, min_eq_right hf255, max_eq_right hf0]
  · simp [create_point3d_from_mesh, createPoint3dGo, mkPoint3d,
      quantizeChannel, pyInt]

/-- Claim C6 witness at channel value one half. -/
theorem point_colour_quantization_witness :
    (0 : ℚ) ≤ 1 / 2 ∧ (1 / 2 : ℚ) ≤ 1 ∧
    quantizeChannel (1 / 2) = max 0 (min 255 ⌊(1 / 2 : ℚ) * 255⌋) :=
  ⟨by norm_num, by norm_num,
   point_colour_quantization.2.1 (1 / 2) (by norm_num) (by norm_num)⟩

/-- Camera id of every image the inner frame loop produces is the id of
the enclosing camera. -/
theorem imagesForCamera_camera_id (camera_id : ℕ) (c : CamInput) :
    ∀ (fs : List FrameData) (image_id : ℕ) (pr : ℕ × PosedImage),
      pr ∈ imagesForCamera camera_id c image_id fs → pr.2.camera_id = camera_id
  | [], _, _, h => absurd h (List.not_mem_nil _)
  | f :: rest, image_id, pr, h => by
      rcases List.mem_cons.mp h with h1 | h2
      · rw [h1]; rfl
      · exact imagesForCamera_camera_id camera_id c rest (image_id + 1) pr h2

/-- Every image the camera loop produces references a camera id that is
a key of the cameras dictionary it builds. -/
theorem exportBuildGo_referential (model : CameraModel) (scene : SceneSettings) :
    ∀ (cams : List CamInput) (camera_id image_id : ℕ) (pr : ℕ × PosedImage),
      pr ∈ (exportBuildGo model scene camera_id image_id cams).2 →
      pr.2.camera_id ∈
        (exportBuildGo model scene camera_id image_id cams).1.map Prod.fst
  | [], _, _, _, h => absurd h (List.not_mem_nil _)
  | c :: rest, camera_id, image_id, pr, h => by
      simp only [exportBuildGo, List.map_cons, List.mem_cons]
      rcases List.mem_append.mp h with h1 | h2
      · exact Or.inl (imagesForCamera_camera_id camera_id c c.frames image_id pr h1)
      · exact Or.inr (exportBuildGo_referential model scene rest (camera_id + 1)
          (image_id + c.frames.length) pr h2)

/-- Claim C7: every PosedImage in the images map passed to the model
writer has a camera_id that is a key of the cameras map built alongside
it; each camera record is inserted before the images referencing it. -/
theorem images_reference_existing_cameras (model : CameraModel)
    (scene : SceneSettings) (cams : List CamInput) (pr : ℕ × PosedImage)
    (h : pr ∈ (exportBuildModel model scene cams).2) :
    pr.2.camera_id ∈ (exportBuildModel model scene cams).1.map Prod.fst :=
  exportBuildGo_referential model scene cams 1 1 pr h

/-- Claim C7 witness: a one-camera, one-frame export. -/
theorem images_reference_existing_cameras_witness :
    ((1, mkPosedImage 1 1 ⟨"Camera", ⟨50, 36, 24⟩, [⟨1, quatIdentity, Vec3.zero⟩]⟩
          ⟨1, quatIdentity, Vec3.zero⟩) ∈
        (exportBuildModel CameraModel.PINHOLE ⟨1920, 1080, 100⟩
          [⟨"Camera", ⟨50, 36, 24⟩, [⟨1, quatIdentity, Vec3.zero⟩]⟩]).2) ∧
    (1, mkPosedImage 1 1 ⟨"Camera", ⟨50, 36, 24⟩, [⟨1, quatIdentity, Vec3.zero⟩]⟩
        ⟨1, quatIdentity, Vec3.zero⟩).2.camera_id ∈
      (exportBuildModel CameraModel.PINHOLE ⟨1920, 1080, 100⟩
        [⟨"Camera", ⟨50, 36, 24⟩, [⟨1, quatIdentity, Vec3.zero⟩]⟩]).1.map Prod.fst := by
  have hmem : (1, mkPosedImage 1 1
      ⟨"Camera", ⟨50, 36, 24⟩, [⟨1, quatIdentity, Vec3.zero⟩]⟩
      ⟨1, quatIdentity, Vec3.zero⟩) ∈
      (exportBuildModel CameraModel.PINHOLE ⟨1920, 1080, 100⟩
        [⟨"Camera", ⟨50, 36, 24⟩, [⟨1, quatIdentity, Vec3.zero⟩]⟩]).2 := by
    simp [exportBuildModel, exportBuildGo, imagesForCamera]
  exact ⟨hmem, images_reference_existing_cameras CameraModel.PINHOLE
    ⟨1920, 1080, 100⟩ _ _ hmem⟩

/-- Claim C8: the params sequence has the fixed arity of the selected
model: four values for PINHOLE, eight for OPENCV whose last four
distortion coefficients are all zero and whose first four agree with
the PINHOLE parameters. -/
theorem camera_parameters_arity (cam : CamIntrinsics) (scene : SceneSettings) :
    (get_camera_parameters CameraModel.PINHOLE cam scene).length = 4 ∧
    (get_camera_parameters CameraModel.OPENCV cam scene).length = 8 ∧
    (get_camera_parameters CameraModel.OPENCV cam scene).drop 4 = [0, 0, 0, 0] ∧
    (get_camera_parameters CameraModel.OPENCV cam scene).take 4 =
      get_camera_parameters CameraModel.PINHOLE cam scene :=
  ⟨rfl, rfl, rfl, rfl⟩

/-- Claim C9: with at least one scene camera, export_dataset creates
dirpath/sparse/0 and dirpath/images with parents, and invokes the model
writer on dirpath/sparse/0 with the selected encoding, so the three
model files land under dirpath/sparse/0. -/
theorem export_directory_layout (dirpath : List String) (fmt : OutputFormat)
    (model : CameraModel) (scene : SceneSettings) (cams : List CamInput)
    (h : cams ≠ []) :
    ExportEvent.mkdirAll (dirpath ++ ["sparse", "0"]) ∈
        exportDatasetEvents dirpath fmt model scene cams ∧
    ExportEvent.mkdirAll (dirpath ++ ["images"]) ∈
        exportDatasetEvents dirpath fmt model scene cams ∧
    ExportEvent.writeModelCall (dirpath ++ ["sparse", "0"]) fmt ∈
        exportDatasetEvents dirpath fmt model scene cams ∧
    ∀ e ∈ writeModelEvents (dirpath ++ ["sparse", "0"]) fmt,
      e ∈ exportDatasetEvents dirpath fmt model scene cams := by
  cases cams with
  | nil => exact absurd rfl h
  | cons c cs =>
      refine ⟨?_, ?_, ?_, ?_⟩ <;>
        simp [exportDatasetEvents, writeModelEvents]

/-- Claim C9 witness: one camera, text encoding, output directory out. -/
theorem export_directory_layout_witness :
    ExportEvent.mkdirAll (["out"] ++ ["sparse", "0"]) ∈
        exportDatasetEvents ["out"] OutputFormat.txt CameraModel.PINHOLE
          ⟨1920, 1080, 100⟩ [⟨"Camera", ⟨50, 36, 24⟩, [⟨1, quatIdentity, Vec3.zero⟩]⟩] ∧
    ExportEvent.mkdirAll (["out"] ++ ["images"]) ∈
        exportDatasetEvents ["out"] OutputFormat.txt CameraModel.PINHOLE
          ⟨1920, 1080, 100⟩ [⟨"Camera", ⟨50, 36, 24⟩, [⟨1, quatIdentity, Vec3.zero⟩]⟩] ∧
    ExportEvent.writeModelCall (["out"] ++ ["sparse", "0"]) OutputFormat.txt ∈
        exportDatasetEvents ["out"] OutputFormat.txt CameraModel.PINHOLE
          ⟨1920, 1080, 100⟩ [⟨"Camera", ⟨50, 36, 24⟩, [⟨1, quatIdentity, Vec3.zero⟩]⟩] ∧
    ∀ e ∈ writeModelEvents (["out"] ++ ["sparse", "0"]) OutputFormat.txt,
      e ∈ exportDatasetEvents ["out"] OutputFormat.txt CameraModel.PINHOLE
          ⟨1920, 1080, 100⟩ [⟨"Camera", ⟨50, 36, 24⟩, [⟨1, quatIdentity, Vec3.zero⟩]⟩] :=
  export_directory_layout ["out"] OutputFormat.txt CameraModel.PINHOLE
    ⟨1920, 1080, 100⟩ [⟨"Camera", ⟨50, 36, 24⟩, [⟨1, quatIdentity, Vec3.zero⟩]⟩]
    (List.cons_ne_nil _ _)

/-- Claim C10: render_camera_at_frame leaves the current frame and the
active camera at their pre-call values on every exit path, whether the
render or the save raised or not. -/
theorem render_scope_restores_scene (cam : ℕ) (frame : ℤ)
    (render_raises save_raises : Bool) (s : SceneState) :
    ((render_camera_at_frame cam frame render_raises save_raises s).2.frame_current
        = s.frame_current) ∧
    ((render_camera_at_frame cam frame render_raises save_raises s).2.camera
        = s.camera) := by
  cases render_raises <;> cases save_raises <;>
    simp [render_camera_at_frame, tryFinallyS, renderBody, renderFinally]
